import Mathlib

/-!
Verification of the request-policy pipeline of the healthcare web-app backend:
request classification, audit gating, PHI-access recording, the fail-safe
error handler, token authentication, and the rate-limit engine.

Each definition is a shallow embedding of the corresponding TypeScript
function (file and function named in its doc comment).  Strings are modelled
as Lean `String`; JavaScript `path.includes(s)` is modelled by `strContains`;
nullable values by `Option`; thrown exceptions by `Except String`.
-/

namespace Facets

/-- `listStartsWith n h` is true when `n` is an initial segment of `h`
(JS `startsWith` on character lists). -/
def listStartsWith : List Char → List Char → Bool
  | [], _ => true
  | _ :: _, [] => false
  | a :: as, b :: bs => a == b && listStartsWith as bs

/-- `listContainsSub n h` is true when `n` occurs contiguously inside `h`. -/
def listContainsSub (needle : List Char) : List Char → Bool
  | [] => listStartsWith needle []
  | c :: cs => listStartsWith needle (c :: cs) || listContainsSub needle cs

/-- JavaScript `haystack.includes(needle)` for strings. -/
def strContains (haystack needle : String) : Bool :=
  listContainsSub needle.toList haystack.toList

/-- JavaScript `s.startsWith(pre)` for strings. -/
def strStartsWith (s pre : String) : Bool :=
  listStartsWith pre.toList s.toList

/-- JavaScript truthiness of a possibly-absent string value: `undefined`,
`null` and the empty string are falsy. -/
def truthy : Option String → Bool
  | none => false
  | some s => s ≠ ""

/-- `truthyOpt o` is `o` when truthy, otherwise `none` (JS
`cond ? value : null` patterns guarded by a truthiness test). -/
def truthyOpt (o : Option String) : Option String :=
  if truthy o then o else none

/-- JS `try { body } catch (e) { handler(e) }` where `body` is an
exception-producing computation: the handler consumes any thrown error,
so the construct as a whole always returns normally. -/
def tryCatchE {α : Type} (body : Except String α) (handler : String → α) : α :=
  match body with
  | .ok a => a
  | .error e => handler e

/-! ## Request model -/

/-- The authenticated user attached to a request by the auth middleware
(`AuthenticatedRequest.user` in `src/web-app/backend/src/middleware/auth.ts`). -/
structure AuthUser where
  userId : String
  username : String
  roles : List String
  permissions : List String
  deriving Repr, DecidableEq

/-- The slice of an Express request the audit middleware consults. -/
structure Req where
  method : String
  path : String
  user : Option AuthUser
  /-- `req.body.ssn` present and truthy. -/
  bodySsn : Bool
  /-- `req.body.social_security_number` present and truthy. -/
  bodySocialSecurityNumber : Bool
  /-- `req.body.accessReason`, when present. -/
  bodyAccessReason : Option String
  /-- `req.params.memberId` / `req.body.memberId` / `req.query.memberId`. -/
  paramsMemberId : Option String
  bodyMemberId : Option String
  queryMemberId : Option String
  /-- `req.body.businessJustification`, when present. -/
  bodyBusinessJustification : Option String
  ip : String
  userAgent : Option String
  sessionID : Option String
  deriving Repr, DecidableEq

/-! ## Request classifier
(`src/web-app/backend/src/routes/planRoutes.ts`, audit-logger section) -/

/-- Embeds `getActionType(method, path)`: `/auth/login` paths map to LOGIN,
`/auth/logout` to LOGOUT, otherwise the method map
GET→SELECT, POST→INSERT, PUT/PATCH→UPDATE, DELETE→DELETE, default ACCESS. -/
def getActionType (method path : String) : String :=
  if strContains path "/auth/login" then "LOGIN"
  else if strContains path "/auth/logout" then "LOGOUT"
  else if method = "GET" then "SELECT"
  else if method = "POST" then "INSERT"
  else if method = "PUT" then "UPDATE"
  else if method = "PATCH" then "UPDATE"
  else if method = "DELETE" then "DELETE"
  else "ACCESS"

/-- Embeds `getResourceType(path)`: first match over substring tests, in the
source's order `/members`, `/claims`, `/providers`, `/users`-or-`/auth`,
`/admin`, default UNKNOWN. -/
def getResourceType (path : String) : String :=
  if strContains path "/members" then "MEMBER"
  else if strContains path "/claims" then "CLAIM"
  else if strContains path "/providers" then "PROVIDER"
  else if strContains path "/users" || strContains path "/auth" then "USER"
  else if strContains path "/admin" then "SYSTEM"
  else "UNKNOWN"

/-- Embeds `containsPHI(req)`: the path includes `/members` or `/claims`. -/
def containsPHI (req : Req) : Bool :=
  strContains req.path "/members" || strContains req.path "/claims"

/-- Embeds `shouldAuditRequest(req)`: authenticated requests, `/auth/` paths,
`/admin/` paths, mutating methods, and sensitive-endpoint paths are audited. -/
def shouldAuditRequest (req : Req) : Bool :=
  if req.user.isSome then true
  else if strContains req.path "/auth/" then true
  else if strContains req.path "/admin/" then true
  else if ["POST", "PUT", "PATCH", "DELETE"].contains req.method then true
  else
    ["/members/", "/claims/", "/providers/"].any fun e => strContains req.path e

/-- Embeds `getPHIElements(path, body)`. -/
def getPHIElements (path : String) (ssn socialSecurityNumber : Bool) :
    List String :=
  (if strContains path "/members" then
    ["DEMOGRAPHIC", "CONTACT", "IDENTIFICATION"] ++
      (if ssn || socialSecurityNumber then ["SSN"] else [])
  else []) ++
  (if strContains path "/claims" then ["MEDICAL", "FINANCIAL"] else [])

/-- Embeds `getPHIType(path)`. -/
def getPHIType (path : String) : String :=
  if strContains path "/members" then "DEMOGRAPHIC"
  else if strContains path "/claims" then "MEDICAL"
  else "GENERAL"

/-- The row written to `phi_access_log` by `logPHIAccess`. -/
structure PHIAccessRecord where
  userId : String
  username : String
  userRole : String
  memberId : Option String
  phiType : String
  phiElements : List String
  accessReason : String
  accessMethod : String
  minimumNecessary : Bool
  sourceSystem : String
  clientIp : String
  sessionId : String
  deriving Repr, DecidableEq

/-- Embeds `getMemberIdFromRequest(req)` without the path-regex branch: the
regex fallback is modelled as an extra argument `pathMatch`, the result of
matching `/members/<uuid>` against the path (exercised only on `/members/`
paths, as in the source). -/
def getMemberIdFromRequest (req : Req) (pathMatch : Option String) :
    Option String :=
  match req.paramsMemberId with
  | some m => some m
  | none =>
    match req.bodyMemberId with
    | some m => some m
    | none =>
      match req.queryMemberId with
      | some m => some m
      | none =>
        if strContains req.path "/members/" then pathMatch else none

/-- Embeds `logPHIAccess(req, res)`: returns the `phi_access_log` row it
persists, or `none` when it returns early because `req.user` is absent.
(The `try/catch` around the insert is modelled in `auditFinish` below.) -/
def logPHIAccess (req : Req) (pathMatch : Option String) :
    Option PHIAccessRecord :=
  match req.user with
  | none => none
  | some u =>
    some
      { userId := u.userId
        username := u.username
        userRole := u.roles.headD "User"
        memberId := getMemberIdFromRequest req pathMatch
        phiType := getPHIType req.path
        phiElements :=
          getPHIElements req.path req.bodySsn req.bodySocialSecurityNumber
        accessReason := req.bodyAccessReason.getD "API access"
        accessMethod := "API"
        minimumNecessary := true
        sourceSystem := "healthcare-web-app"
        clientIp := req.ip
        sessionId := req.sessionID.getD "web-session" }

/-! ## Audit recording (post-response `finish` callback) -/

/-- The non-empty segments of a path (`path.split('/').filter(s => s)`). -/
def pathSegments (path : String) : List String :=
  (path.splitOn "/").filter (fun s => s ≠ "")

/-- Embeds `getModuleName(path)`: second segment after the leading `api`,
defaulting to `api`. -/
def getModuleName (path : String) : String :=
  (pathSegments path).getD 1 "api"

/-- Embeds `getFunctionName(path)`: third segment, defaulting to `index`. -/
def getFunctionName (path : String) : String :=
  (pathSegments path).getD 2 "index"

/-- The row written to `audit_log` by `logAuditEvent`. -/
structure AuditRecord where
  userId : Option String
  username : Option String
  clientIp : String
  userAgent : Option String
  actionType : String
  resourceType : String
  resourceId : Option String
  applicationName : String
  moduleName : String
  functionName : String
  containsPhi : Bool
  hipaaCompliant : Bool
  businessJustification : String
  deriving Repr, DecidableEq

/-- The audit row `logAuditEvent` assembles from the request.
`resourceIdMatch` is the result of the source's `getResourceId` regex on the
path (first numeric or UUID-shaped segment), passed in as data. -/
def mkAuditRecord (req : Req) (resourceIdMatch : Option String) : AuditRecord :=
  { userId := req.user.map (·.userId)
    username := req.user.map (·.username)
    clientIp := req.ip
    userAgent := req.userAgent
    actionType := getActionType req.method req.path
    resourceType := getResourceType req.path
    resourceId := resourceIdMatch
    applicationName := "healthcare-web-app"
    moduleName := getModuleName req.path
    functionName := getFunctionName req.path
    containsPhi := containsPHI req
    hipaaCompliant := true
    businessJustification :=
      match req.bodyBusinessJustification with
      | some s => if s ≠ "" then s else req.method ++ " request to " ++ req.path
      | none => req.method ++ " request to " ++ req.path }

/-- Embeds `logAuditEvent`'s guarded insert: the `INSERT INTO audit_log` may
fail (`db`), in which case the failure is caught and a local diagnostic line
is emitted instead of a persisted row. -/
def logAuditEvent (db : Except String Unit) (record : AuditRecord) :
    List AuditRecord × List String :=
  tryCatchE (do let _ ← db; pure ([record], ([] : List String)))
    (fun _ => ([], ["Failed to insert audit log:"]))

/-- Embeds `logPHIAccess`'s guarded insert: early return when the request is
unauthenticated, otherwise the `INSERT INTO phi_access_log` may fail (`db`)
and the failure is caught locally. -/
def logPHIAccessRun (db : Except String Unit) (req : Req)
    (pathMatch : Option String) : List PHIAccessRecord × List String :=
  match logPHIAccess req pathMatch with
  | none => ([], [])
  | some record =>
    tryCatchE (do let _ ← db; pure ([record], ([] : List String)))
      (fun _ => ([], ["Failed to log PHI access:"]))

/-- What the `res.on('finish')` callback of `auditLogger` produces: persisted
audit rows, persisted PHI rows, and local diagnostic log lines. -/
structure AuditOutcome where
  audits : List AuditRecord
  phis : List PHIAccessRecord
  localLog : List String

/-- Embeds the body of the `res.on('finish')` callback of `auditLogger`
(before its enclosing `try/catch` safety net): audit the request when
`shouldAuditRequest` says so, record PHI access when `containsPHI` says so.
Every await that can reject is modelled in `Except`; the persistence
failures `dbAudit`/`dbPhi` are consumed by the guards inside
`logAuditEvent` / `logPHIAccessRun`, so the body never reaches the outer
catch. -/
def auditFinishBody (req : Req) (resourceIdMatch pathMatch : Option String)
    (dbAudit dbPhi : Except String Unit) : Except String AuditOutcome := do
  let audit ←
    if shouldAuditRequest req then
      pure (logAuditEvent dbAudit (mkAuditRecord req resourceIdMatch))
    else pure (([], []) : List AuditRecord × List String)
  let phi ←
    if containsPHI req then pure (logPHIAccessRun dbPhi req pathMatch)
    else pure (([], []) : List PHIAccessRecord × List String)
  pure ⟨audit.1, phi.1, audit.2 ++ phi.2⟩

/-- The full `res.on('finish')` callback: the body wrapped in the source's
outer `try { ... } catch { logger.error('Audit logging failed:') }`. -/
def auditFinish (req : Req) (resourceIdMatch pathMatch : Option String)
    (dbAudit dbPhi : Except String Unit) : AuditOutcome :=
  tryCatchE (auditFinishBody req resourceIdMatch pathMatch dbAudit dbPhi)
    (fun _ => ⟨[], [], ["Audit logging failed:"]⟩)

/-! ## Fail-safe error handler
(`src/web-app/backend/src/middleware/errorHandler.ts`) -/

/-- The slice of an `AppError` the handler consults: its `name`, `message`,
optional PostgreSQL `code`, optional explicit `statusCode`, optional `stack`,
and — for validation errors — the optional `details` array, modelled as the
list of its elements' `message` fields. -/
structure AppError where
  name : String
  message : String
  code : Option String
  statusCode : Option Nat
  stack : Option String
  details : Option (List String)
  deriving Repr, DecidableEq

/-- The slice of the request the error handler consults.  `headers` and
`body` are field lookups (absent fields are `none`), as the sanitizers
iterate over fixed field-name lists. -/
structure ErrReq where
  method : String
  path : String
  originalUrl : String
  ip : String
  userAgent : Option String
  headers : String → Option String
  body : String → Option String
  user : Option AuthUser

/-- The body fields `sanitizeRequestData` redacts. -/
def sensitiveFields : List String :=
  ["password", "ssn", "social_security_number", "token", "apiKey"]

/-- The header fields `sanitizeHeaders` redacts. -/
def sensitiveHeaders : List String :=
  ["authorization", "cookie", "x-api-key"]

/-- Embeds `sanitizeRequestData(data)`: each sensitive field whose value is
truthy is overwritten with `[REDACTED]`; everything else is left as-is.
(The source copies the object and mutates the copy; per-field this is the
pointwise function below.) -/
def sanitizeRequestData (data : String → Option String) :
    String → Option String :=
  fun k =>
    if sensitiveFields.contains k && truthy (data k) then some "[REDACTED]"
    else data k

/-- Embeds `sanitizeHeaders(headers)`. -/
def sanitizeHeaders (headers : String → Option String) :
    String → Option String :=
  fun k =>
    if sensitiveHeaders.contains k && truthy (headers k) then some "[REDACTED]"
    else headers k

/-- Embeds `classifyErrorType(error)`. -/
def classifyErrorType (e : AppError) : String :=
  if e.name = "ValidationError" then "VALIDATION_ERROR"
  else if e.name = "UnauthorizedError" then "AUTHENTICATION_ERROR"
  else if (match e.code with
           | some c => strStartsWith c "23"
           | none => false) then "DATABASE_ERROR"
  else if (match e.statusCode with
           | some sc => 400 ≤ sc && sc < 500
           | none => false) then "CLIENT_ERROR"
  else "SYSTEM_ERROR"

/-- Embeds `getSeverityLevel(statusCode)`. -/
def getSeverityLevel (statusCode : Nat) : String :=
  if 500 ≤ statusCode then "HIGH"
  else if 400 ≤ statusCode then "MEDIUM"
  else "LOW"

/-- Embeds `getComponentFromPath(path)`: the second non-empty segment when
there are at least two, else `unknown`. -/
def getComponentFromPath (path : String) : String :=
  match pathSegments path with
  | _ :: b :: _ => b
  | _ => "unknown"

/-- Embeds `formatValidationError(error)`: join the `details` messages with
`; ` when a details array is present, else the error's message with a
truthiness fallback. -/
def formatValidationError (e : AppError) : String :=
  match e.details with
  | some l => String.intercalate "; " l
  | none => if e.message = "" then "Validation failed" else e.message

/-- The row `logErrorToDatabase` inserts into `system_errors`. -/
structure SystemErrorRecord where
  errorType : String
  severityLevel : String
  errorCode : String
  errorMessage : String
  serverName : String
  applicationComponent : String
  userId : Option String
  requestId : Option String
  stackTrace : Option String
  requestBody : String → Option String
  requestHeaders : String → Option String
  environment : String

/-- The values `logErrorToDatabase` computes for the `system_errors` insert,
given the status code the handler passes it. -/
def mkSystemErrorRecord (env : String) (e : AppError) (req : ErrReq)
    (statusCode : Nat) : SystemErrorRecord :=
  { errorType := classifyErrorType e
    severityLevel := getSeverityLevel statusCode
    errorCode := e.code.getD (toString statusCode)
    errorMessage := e.message
    serverName := "healthcare-api"
    applicationComponent := getComponentFromPath req.path
    userId := req.user.map (·.userId)
    requestId := truthyOpt (req.headers "x-request-id")
    stackTrace := e.stack
    requestBody := sanitizeRequestData req.body
    requestHeaders := sanitizeHeaders req.headers
    environment := if env = "" then "development" else env }

/-- Embeds `logErrorToDatabase`'s guarded insert: `db` is the outcome of the
`INSERT INTO system_errors` query; a failure is caught inside the function
(`// Don't throw here to avoid infinite recursion`) and reported as a local
diagnostic line, so the function always returns normally.  Returns whether
the row was persisted, plus local log lines. -/
def logErrorToDatabase (db : Except String Unit) : Bool × List String :=
  tryCatchE (do let _ ← db; pure (true, ([] : List String)))
    (fun _ => (false, ["Database error logging failed:"]))

/-- The client-facing error response body (`response.error` in the source),
plus the HTTP status it is sent with.  `detailsIncluded` records whether the
development-only `details` blob was attached. -/
structure ErrResponse where
  status : Nat
  message : String
  timestamp : String
  stack : Option String
  detailsIncluded : Bool
  requestId : Option String
  deriving Repr, DecidableEq

/-- Everything observable about one `errorHandler` invocation. -/
structure HandlerOutcome where
  record : SystemErrorRecord
  persisted : Bool
  localLog : List String
  response : ErrResponse

/-- Embeds `errorHandler(error, req, res, next)`.  `env` is
`process.env.NODE_ENV`, `db` the outcome of the persistence insert, `now`
the timestamp.  Mirrors the source's order: destructure
`statusCode = error.statusCode ?? 500`, log locally, attempt the guarded
database insert (built from the *pre-classification* status), then classify
by first match, mask 500s in production, and build the response. -/
def errorHandler (env : String) (db : Except String Unit) (e : AppError)
    (req : ErrReq) (now : String) : HandlerOutcome :=
  let statusCode0 := e.statusCode.getD 500
  let record := mkSystemErrorRecord env e req statusCode0
  let dbOutcome := tryCatchE (Except.ok (logErrorToDatabase db))
    (fun _ => (false, ["Failed to log error to database:"]))
  let classified :=
    if e.name = "ValidationError" then (400, formatValidationError e)
    else if e.name = "UnauthorizedError" then (401, "Invalid credentials")
    else if e.name = "CastError" then (400, "Invalid ID format")
    else if e.code = some "23505" then (409, "Resource already exists")
    else if e.code = some "23503" then
      (400, "Invalid reference to related resource")
    else if e.code = some "23502" then (400, "Required field is missing")
    else (statusCode0, e.message)
  let masked :=
    if env == "production" && classified.1 == 500 then
      "Internal server error occurred"
    else classified.2
  { record := record
    persisted := dbOutcome.1
    localLog := ["API Error:"] ++ dbOutcome.2
    response :=
      { status := classified.1
        message := masked
        timestamp := now
        stack := if env = "development" then e.stack else none
        detailsIncluded := env == "development"
        requestId := truthyOpt (req.headers "x-request-id") } }

/-! ## Token authentication
(`src/web-app/backend/src/middleware/auth.ts`) -/

/-- One row of the `app_users` join in `authenticateToken`: roles and
permissions are aggregated arrays that may contain SQL `NULL`s (from the
LEFT JOINs), which the middleware filters out. -/
structure UserRow where
  user_id : String
  username : String
  roles : List (Option String)
  permissions : List (Option String)
  deriving Repr, DecidableEq

/-- What `authenticateToken` does with the request: send an error response,
or attach the user and pass control to the next handler. -/
inductive AuthResult where
  | respond (status : Nat) (error : String)
  | proceed (user : AuthUser)
  deriving Repr, DecidableEq

/-- Splits a character list at every occurrence of `c`, keeping empty
pieces (JS `String.prototype.split` with a single-character separator). -/
def splitCharAux (c : Char) : List Char → List Char → List String
  | [], acc => [String.mk acc.reverse]
  | x :: xs, acc =>
    if x == c then String.mk acc.reverse :: splitCharAux c xs []
    else splitCharAux c xs (x :: acc)

/-- JS `s.split(c)` for a one-character separator. -/
def splitChar (c : Char) (s : String) : List String :=
  splitCharAux c s.toList []

/-- The bearer token extracted from the authorization header:
`authHeader && authHeader.split(' ')[1]`. -/
def extractToken (authHeader : Option String) : Option String :=
  match authHeader with
  | none => none
  | some h => (splitChar ' ' h).get? 1

/-- Embeds `authenticateToken(req, res, next)`.  The three awaits that can
reject are passed in as outcomes: `verify` (`jwt.verify`, yielding the
decoded `userId`), `lookup` (the user/roles/permissions query, yielding its
rows), and `upd` (the `UPDATE app_users SET last_activity` write).  All
three run inside the source's single `try` block, whose `catch` responds
`403 Invalid token`. -/
def authenticateToken (authHeader : Option String)
    (verify : Except String String) (lookup : Except String (List UserRow))
    (upd : Except String Unit) : AuthResult :=
  if !truthy (extractToken authHeader) then
    .respond 401 "Access token required"
  else
    tryCatchE
      (do
        let _ ← verify
        let rows ← lookup
        match rows with
        | [] => pure (.respond 401 "Invalid or expired token")
        | u :: _ => do
          let user : AuthUser :=
            { userId := u.user_id
              username := u.username
              roles := u.roles.filterMap id
              permissions := u.permissions.filterMap id }
          let _ ← upd
          pure (.proceed user))
      (fun _ => .respond 403 "Invalid token")

/-! ## Rate-limit engine
(`src/web-app/backend/src/middleware/rateLimiter.ts`)

The per-key consume operation itself lives in the `rate-limiter-flexible`
library (`RateLimiterMemory`), which is not part of this repository's
sources; only its configuration and call sites are.  It is therefore
modelled from the specification. -/

/-- Modelled from the spec: the per-key `RateLimitWindow` state of the
`RateLimiterMemory` consume primitive (`rate-limiter-flexible`), restricted
to a single window (§3: consumed-count and a block flag standing for a set
`block-until`; the claim under verification makes all calls inside one
window, so the clock is constant and `block-until` is a Boolean). -/
structure RLState where
  consumed : Nat
  blocked : Bool
  deriving Repr, DecidableEq

/-- Modelled from the spec: `consume(key)` (§4.2), atomic per key
(compare-and-increment, §5): a blocked key rejects; a key with spare
capacity increments and allows; a key at capacity rejects and transitions
to BLOCKED. -/
def consume (capacity : Nat) (s : RLState) : RLState × Bool :=
  if s.blocked then (s, false)
  else if s.consumed < capacity then
    ({ consumed := s.consumed + 1, blocked := false }, true)
  else ({ s with blocked := true }, false)

/-- `n` consume calls for one key, serialized in some order: because each
`consume` is atomic and all calls for the key are identical, every
interleaving of `n` concurrent calls is this sequential composition.
Returns the final state, the number allowed and the number rejected. -/
def runConsumes (capacity : Nat) : Nat → RLState → RLState × Nat × Nat
  | 0, s => (s, 0, 0)
  | n + 1, s =>
    let step := consume capacity s
    let rest := runConsumes capacity n step.1
    if step.2 then (rest.1, rest.2.1 + 1, rest.2.2)
    else (rest.1, rest.2.1, rest.2.2 + 1)

/-! ## Specification-side classification tables

Written from the specification's words (§4.5 of the spec / the claim text),
to be compared with the embedded handler: the response status and message
by first-match classification, and severity as a function of a status. -/

/-- The spec's classification table, first match wins: validation marker
→ 400, auth marker → 401, cast marker → 400, unique violation → 409,
foreign-key violation → 400, not-null violation → 400, otherwise an
explicit status code on the error, otherwise 500. -/
def statusSpec (e : AppError) : Nat :=
  if e.name = "ValidationError" then 400
  else if e.name = "UnauthorizedError" then 401
  else if e.name = "CastError" then 400
  else if e.code = some "23505" then 409
  else if e.code = some "23503" then 400
  else if e.code = some "23502" then 400
  else match e.statusCode with
    | some c => c
    | none => 500

/-- The client-facing message the spec's table pairs with each rule
(before production masking). -/
def messageSpec (e : AppError) : String :=
  if e.name = "ValidationError" then formatValidationError e
  else if e.name = "UnauthorizedError" then "Invalid credentials"
  else if e.name = "CastError" then "Invalid ID format"
  else if e.code = some "23505" then "Resource already exists"
  else if e.code = some "23503" then "Invalid reference to related resource"
  else if e.code = some "23502" then "Required field is missing"
  else e.message

/-- The spec's severity table: status ≥ 500 → HIGH, 400–499 → MEDIUM,
else LOW. -/
def severitySpec (statusCode : Nat) : String :=
  if statusCode ≥ 500 then "HIGH"
  else if 400 ≤ statusCode ∧ statusCode ≤ 499 then "MEDIUM"
  else "LOW"

/-! ## Sample fixtures used by witnesses and counterexamples -/

/-- A request with all optional/body fields absent. -/
def mkReq (method path : String) (user : Option AuthUser) : Req :=
  { method := method
    path := path
    user := user
    bodySsn := false
    bodySocialSecurityNumber := false
    bodyAccessReason := none
    paramsMemberId := none
    bodyMemberId := none
    queryMemberId := none
    bodyBusinessJustification := none
    ip := "127.0.0.1"
    userAgent := none
    sessionID := none }

/-- A concrete authenticated user. -/
def sampleUser : AuthUser :=
  { userId := "u-1"
    username := "alice"
    roles := ["Admin"]
    permissions := ["read_members"] }

/-- A concrete error-handler request with empty body and headers. -/
def sampleErrReq : ErrReq :=
  { method := "GET"
    path := "/api/plans"
    originalUrl := "/api/plans"
    ip := "127.0.0.1"
    userAgent := none
    headers := fun _ => none
    body := fun _ => none
    user := none }

/-- An authenticated GET to a path with no auth segment, no admin segment,
and an UNKNOWN resource type. -/
def widgetsReq : Req := mkReq "GET" "/api/widgets/17" (some sampleUser)

/-- An unauthenticated POST to a member (PHI-bearing) path. -/
def unauthPostMembers : Req := mkReq "POST" "/api/members/42" none

/-- A validation error with no explicit status code. -/
def validationErr : AppError :=
  { name := "ValidationError"
    message := "bad input"
    code := none
    statusCode := none
    stack := none
    details := none }

/-- An unclassified server error with an explicit 500 status whose message
holds internal detail. -/
def leakErr : AppError :=
  { name := "Error"
    message := "secret internals"
    code := none
    statusCode := some 500
    stack := some "at line 1"
    details := none }

/-- A user row as returned by the `app_users` join, with SQL `NULL`s in the
aggregated arrays. -/
def sampleUserRow : UserRow :=
  { user_id := "u-1"
    username := "alice"
    roles := [some "Admin", none]
    permissions := [some "read_members", none] }

/-- A request body whose `password` field is present but empty (falsy). -/
def falsyBody : String → Option String :=
  fun k => if k = "password" then some "" else none

/-! ## Rate-limit lemmas -/

/-- A blocked key rejects every one of `n` consume calls. -/
lemma runConsumes_blocked (capacity n : Nat) (s : RLState)
    (h : s.blocked = true) :
    runConsumes capacity n s = (s, 0, n) := by
  induction n with
  | zero => rfl
  | succ n ih =>
    simp only [runConsumes, consume, h, if_true]
    simp [ih]

/-- An unblocked key with `consumed ≤ capacity` allows exactly
`min n (capacity − consumed)` of `n` consume calls and rejects the rest. -/
lemma runConsumes_open (capacity : Nat) :
    ∀ (n : Nat) (s : RLState), s.blocked = false →
      (runConsumes capacity n s).2.1 = min n (capacity - s.consumed) ∧
      (runConsumes capacity n s).2.2 = n - (capacity - s.consumed) := by
  intro n
  induction n with
  | zero => intro s _; simp [runConsumes]
  | succ n ih =>
    intro s hs
    by_cases hc : s.consumed < capacity
    · have hstep :
          consume capacity s = ({ consumed := s.consumed + 1, blocked := false }, true) := by
        simp [consume, hs, hc]
      have ihs := ih { consumed := s.consumed + 1, blocked := false } rfl
      simp only [runConsumes, hstep, if_true]
      constructor
      · simp only [ihs.1]
        omega
      · simp only [ihs.2]
        omega
    · have hstep : consume capacity s = ({ s with blocked := true }, false) := by
        simp [consume, hs, hc]
      have hblock := runConsumes_blocked capacity n { s with blocked := true } rfl
      simp only [runConsumes, hstep]
      simp [hblock]
      omega

/-! ## Error-handler characterization lemmas -/

/-- The response status is the first-match classification of the error. -/
lemma errorHandler_response_status (env : String) (db : Except String Unit)
    (e : AppError) (req : ErrReq) (now : String) :
    (errorHandler env db e req now).response.status = statusSpec e := by
  simp only [errorHandler, statusSpec]
  cases e.statusCode <;> split_ifs <;> rfl

/-- The response message is the first-match classification message, masked
exactly when the deployment mode is `production` and the classified status
is exactly 500. -/
lemma errorHandler_response_message (env : String) (db : Except String Unit)
    (e : AppError) (req : ErrReq) (now : String) :
    (errorHandler env db e req now).response.message =
      (if env = "production" ∧ statusSpec e = 500 then
        "Internal server error occurred"
      else messageSpec e) := by
  simp only [errorHandler, statusSpec, messageSpec, Bool.and_eq_true,
    beq_iff_eq]
  cases e.statusCode <;> split_ifs <;> simp_all

/-- The persisted severity is computed from the pre-classification status:
the error's explicit `statusCode`, defaulting to 500. -/
lemma errorHandler_record_severity (env : String) (db : Except String Unit)
    (e : AppError) (req : ErrReq) (now : String) :
    (errorHandler env db e req now).record.severityLevel =
      severitySpec (e.statusCode.getD 500) := by
  simp only [errorHandler, mkSystemErrorRecord, getSeverityLevel,
    severitySpec, ge_iff_le]
  split_ifs <;> first | rfl | omega

/-! ## Claim theorems -/

/-- C1: fail-safe logging.  For every error, request, and behaviour of the
persistence store, the error handler returns the same HTTP error response
whatever the persistence outcome; a failed persistence attempt is only
logged locally (nothing is persisted, the diagnostic line is emitted); and
the post-response audit callback body never raises: it returns normally for
every behaviour of the audit and PHI stores. -/
theorem failsafe_logging (env : String) (e : AppError) (req : ErrReq)
    (now : String) (db db' : Except String Unit) (areq : Req)
    (ridM pmM : Option String) (dbA dbP : Except String Unit) :
    ((errorHandler env db e req now).response
      = (errorHandler env db' e req now).response)
  ∧ (∀ msg, (errorHandler env (Except.error msg) e req now).persisted = false)
  ∧ (∀ msg, (errorHandler env (Except.error msg) e req now).localLog
      = ["API Error:", "Database error logging failed:"])
  ∧ (∃ out, auditFinishBody areq ridM pmM dbA dbP = Except.ok out) := by
  refine ⟨?_, fun msg => rfl, fun msg => rfl, ?_⟩
  · cases db <;> cases db' <;> rfl
  · cases hA : shouldAuditRequest areq <;> cases hP : containsPHI areq <;>
      simp only [auditFinishBody, hA, hP] <;> exact ⟨_, rfl⟩

/-- C2 counterexample: an authenticated GET to a non-auth, non-admin,
non-PHI path whose resource type is UNKNOWN is audited — `shouldAudit`
returns `true`, not `false` as claimed, because any authenticated request
is audited unconditionally. -/
theorem audit_gating_counterexample :
    widgetsReq.user.isSome = true
  ∧ widgetsReq.method = "GET"
  ∧ strContains widgetsReq.path "/auth/" = false
  ∧ strContains widgetsReq.path "/admin/" = false
  ∧ getResourceType widgetsReq.path = "UNKNOWN"
  ∧ containsPHI widgetsReq = false
  ∧ shouldAuditRequest widgetsReq = true := by
  exact ⟨rfl, rfl, by decide, by decide, by decide, by decide, rfl⟩

/-- C2 amended: every authenticated request is audited — in particular an
authenticated GET with resource type UNKNOWN yields `shouldAudit = true`,
and so does the same request with resource type MEMBER. -/
theorem authenticated_requests_always_audited (req : Req)
    (h : req.user.isSome = true) : shouldAuditRequest req = true := by
  simp [shouldAuditRequest, h]

/-- Witness for C2's amended theorem: the authenticated GET to a MEMBER
path is audited. -/
theorem authenticated_requests_always_audited_witness :
    shouldAuditRequest (mkReq "GET" "/api/members/42" (some sampleUser))
      = true :=
  authenticated_requests_always_audited
    (mkReq "GET" "/api/members/42" (some sampleUser)) rfl

/-- C3: no lost updates.  Because each `consume` is atomic per key, any
interleaving of `n` concurrent calls is their sequential composition: from
a fresh window of capacity `C`, exactly `min n C` calls are allowed (hence
at most `C`) and `n − C` are rejected; and from a state with exactly one
remaining point, of two consecutive consume calls the first succeeds and
the second fails — never both. -/
theorem rate_limit_no_lost_updates (capacity n : Nat) (s : RLState)
    (hopen : s.blocked = false) (hone : s.consumed + 1 = capacity) :
    ((runConsumes capacity n ⟨0, false⟩).2.1 = min n capacity
  ∧ (runConsumes capacity n ⟨0, false⟩).2.2 = n - capacity
  ∧ (runConsumes capacity n ⟨0, false⟩).2.1 ≤ capacity)
  ∧ ((consume capacity s).2 = true
  ∧ (consume capacity (consume capacity s).1).2 = false) := by
  have h := runConsumes_open capacity n ⟨0, false⟩ rfl
  simp only [Nat.sub_zero] at h
  have hlt : s.consumed < capacity := by omega
  have hstep :
      consume capacity s
        = ({ consumed := s.consumed + 1, blocked := false }, true) := by
    simp [consume, hopen, hlt]
  refine ⟨⟨h.1, h.2, ?_⟩, ?_, ?_⟩
  · simp [h.1]
  · simp [hstep]
  · rw [hstep]
    simp [consume, hone]

/-- Witness for C3: capacity 1, two concurrent calls — one allowed, one
rejected, and the two-calls-one-point pair behaves as stated. -/
theorem rate_limit_no_lost_updates_witness :
    (((runConsumes 1 2 ⟨0, false⟩).2.1 = min 2 1
  ∧ (runConsumes 1 2 ⟨0, false⟩).2.2 = 2 - 1
  ∧ (runConsumes 1 2 ⟨0, false⟩).2.1 ≤ 1)
  ∧ ((consume 1 (⟨0, false⟩ : RLState)).2 = true
  ∧ (consume 1 (consume 1 (⟨0, false⟩ : RLState)).1).2 = false)) :=
  rate_limit_no_lost_updates 1 2 ⟨0, false⟩ rfl rfl

/-- C4 counterexample: a `ValidationError` with no explicit status code is
classified to response status 400, but the persisted record's severity is
HIGH — computed from the pre-classification default 500 — not MEDIUM as
the claim requires for a classified status in 400–499. -/
theorem severity_preclassification_counterexample :
    (errorHandler "development" (Except.ok ()) validationErr sampleErrReq
        "t").response.status = 400
  ∧ (errorHandler "development" (Except.ok ()) validationErr sampleErrReq
        "t").record.severityLevel = "HIGH"
  ∧ ("HIGH" : String) ≠ "MEDIUM" := by
  exact ⟨by decide, by decide, by decide⟩

/-- C4 amended: the response status and message follow the spec's
first-match classification table (with production masking of exact-500
statuses), but the persisted severity is derived from the
*pre-classification* status — the error's explicit `statusCode`, or 500
when absent — via the HIGH/MEDIUM/LOW table. -/
theorem error_classification_and_severity (env : String)
    (db : Except String Unit) (e : AppError) (req : ErrReq) (now : String) :
    ((errorHandler env db e req now).response.status = statusSpec e)
  ∧ ((errorHandler env db e req now).response.message =
      (if env = "production" ∧ statusSpec e = 500 then
        "Internal server error occurred"
      else messageSpec e))
  ∧ ((errorHandler env db e req now).record.severityLevel =
      severitySpec (e.statusCode.getD 500)) :=
  ⟨errorHandler_response_status env db e req now,
   errorHandler_response_message env db e req now,
   errorHandler_record_severity env db e req now⟩

/-- C5: with a well-formed bearer token, successful verification and an
existing active user, a failing last-activity write lands in the same
`catch` as verification failures: the middleware responds
`403 Invalid token` instead of passing control to the handler — yet with
the write succeeding, the identical request proceeds.  This contradicts
the documented best-effort contract for the last-activity side effect. -/
theorem last_activity_failure_fails_request :
    authenticateToken (some "Bearer good-token") (Except.ok "u-1")
        (Except.ok [sampleUserRow]) (Except.error "connection reset")
      = AuthResult.respond 403 "Invalid token"
  ∧ authenticateToken (some "Bearer good-token") (Except.ok "u-1")
        (Except.ok [sampleUserRow]) (Except.ok ())
      = AuthResult.proceed
          { userId := "u-1"
            username := "alice"
            roles := ["Admin"]
            permissions := ["read_members"] } := by
  exact ⟨by decide, by decide⟩

/-- C6 counterexample: a path whose first meaningful segment is
`providers` but which later names claims classifies as CLAIM, not
PROVIDER — the classifier tests substrings anywhere in the path in the
fixed order members, claims, providers. -/
theorem resource_type_counterexample :
    getResourceType "/api/providers/5/claims" = "CLAIM"
  ∧ ("CLAIM" : String) ≠ "PROVIDER" := by
  exact ⟨by decide, by decide⟩

/-- C6 amended: `resourceType` is chosen by first match over substring
tests anywhere in the path, in the fixed priority order
`/members` → MEMBER, `/claims` → CLAIM, `/providers` → PROVIDER,
`/users`-or-`/auth` → USER, `/admin` → SYSTEM, otherwise UNKNOWN; a later
member or claim segment therefore overrides an earlier provider segment. -/
theorem resource_type_first_match (p : String) :
    (strContains p "/members" = true → getResourceType p = "MEMBER")
  ∧ (strContains p "/members" = false → strContains p "/claims" = true →
      getResourceType p = "CLAIM")
  ∧ (strContains p "/members" = false → strContains p "/claims" = false →
      strContains p "/providers" = true → getResourceType p = "PROVIDER")
  ∧ (strContains p "/members" = false → strContains p "/claims" = false →
      strContains p "/providers" = false →
      (strContains p "/users" = true ∨ strContains p "/auth" = true) →
      getResourceType p = "USER")
  ∧ (strContains p "/members" = false → strContains p "/claims" = false →
      strContains p "/providers" = false → strContains p "/users" = false →
      strContains p "/auth" = false → strContains p "/admin" = true →
      getResourceType p = "SYSTEM")
  ∧ (strContains p "/members" = false → strContains p "/claims" = false →
      strContains p "/providers" = false → strContains p "/users" = false →
      strContains p "/auth" = false → strContains p "/admin" = false →
      getResourceType p = "UNKNOWN") := by
  refine ⟨fun h1 => ?_, fun h1 h2 => ?_, fun h1 h2 h3 => ?_,
    fun h1 h2 h3 h4 => ?_, fun h1 h2 h3 h4 h5 h6 => ?_,
    fun h1 h2 h3 h4 h5 h6 => ?_⟩ <;>
    simp [getResourceType, *]

/-- Witness for C6's amended theorem: a pure provider path is PROVIDER and
a plans path is UNKNOWN. -/
theorem resource_type_first_match_witness :
    getResourceType "/api/providers/5" = "PROVIDER"
  ∧ getResourceType "/api/plans/7" = "UNKNOWN" :=
  ⟨(resource_type_first_match "/api/providers/5").2.2.1 (by decide)
      (by decide) (by decide),
   (resource_type_first_match "/api/plans/7").2.2.2.2.2 (by decide)
      (by decide) (by decide) (by decide) (by decide) (by decide)⟩

/-- C7 counterexample: in a deployment mode that is neither `development`
nor `production` (here `staging`), a classified 500 error's internal
message reaches the caller unmasked — masking tests for exactly
`production`. -/
theorem production_masking_counterexample :
    ("staging" : String) ≠ "development"
  ∧ (errorHandler "staging" (Except.ok ()) leakErr sampleErrReq
        "t").response.status = 500
  ∧ (errorHandler "staging" (Except.ok ()) leakErr sampleErrReq
        "t").response.message = "secret internals"
  ∧ ("secret internals" : String) ≠ "Internal server error occurred" := by
  exact ⟨by decide, by decide, by decide, by decide⟩

/-- C7 amended: the generic internal-error string replaces the message only
in `production` mode and only when the classified status is exactly 500;
in every non-development mode the response carries neither stack trace nor
details, and outside that masking case the classified message is sent. -/
theorem production_masking_scope (env : String) (db : Except String Unit)
    (e : AppError) (req : ErrReq) (now : String)
    (hdev : env ≠ "development") :
    ((errorHandler env db e req now).response.stack = none)
  ∧ ((errorHandler env db e req now).response.detailsIncluded = false)
  ∧ (env = "production" → statusSpec e = 500 →
      (errorHandler env db e req now).response.message
        = "Internal server error occurred")
  ∧ (env ≠ "production" →
      (errorHandler env db e req now).response.message = messageSpec e)
  ∧ (statusSpec e ≠ 500 →
      (errorHandler env db e req now).response.message = messageSpec e) := by
  refine ⟨?_, ?_, fun hp h5 => ?_, fun hp => ?_, fun h5 => ?_⟩
  · simp [errorHandler, hdev]
  · simp [errorHandler, hdev]
  · rw [errorHandler_response_message, if_pos ⟨hp, h5⟩]
  · rw [errorHandler_response_message, if_neg]
    exact fun hc => hp hc.1
  · rw [errorHandler_response_message, if_neg]
    exact fun hc => h5 hc.2

/-- Witness for C7's amended theorem: in production an exact-500 error is
masked and carries no stack. -/
theorem production_masking_scope_witness :
    ((errorHandler "production" (Except.ok ()) leakErr sampleErrReq
        "t").response.message = "Internal server error occurred")
  ∧ ((errorHandler "production" (Except.ok ()) leakErr sampleErrReq
        "t").response.stack = none) :=
  ⟨(production_masking_scope "production" (Except.ok ()) leakErr sampleErrReq
      "t" (by decide)).2.2.1 rfl (by decide),
   (production_masking_scope "production" (Except.ok ()) leakErr sampleErrReq
      "t" (by decide)).1⟩

/-- C8 counterexample: a sensitive field whose value is falsy (an empty
`password`) is left as-is by the sanitizer — its value is not replaced by
the redaction marker, because redaction is guarded by a truthiness test. -/
theorem sanitize_falsy_counterexample :
    sensitiveFields.contains "password" = true
  ∧ falsyBody "password" = some ""
  ∧ sanitizeRequestData falsyBody "password" = some ""
  ∧ (some "" : Option String) ≠ some "[REDACTED]" := by
  exact ⟨by decide, rfl, by decide, by decide⟩

/-- A truthy value is present. -/
lemma isSome_of_truthy (o : Option String) (h : truthy o = true) :
    o.isSome = true := by
  cases o <;> simp_all [truthy]

/-- C8 amended: sanitization of the request snapshot and of the header
capture is idempotent; no field is removed (presence is preserved);
non-sensitive fields are unchanged; and a sensitive field is replaced by
the fixed redaction marker exactly when its value is truthy — a sensitive
field with a falsy value is left unchanged. -/
theorem sanitize_idempotent_shape_preserving
    (data headers : String → Option String) (k : String) :
    (sanitizeRequestData (sanitizeRequestData data) k
      = sanitizeRequestData data k)
  ∧ (sanitizeHeaders (sanitizeHeaders headers) k = sanitizeHeaders headers k)
  ∧ ((sanitizeRequestData data k).isSome = (data k).isSome)
  ∧ ((sanitizeHeaders headers k).isSome = (headers k).isSome)
  ∧ (k ∉ sensitiveFields → sanitizeRequestData data k = data k)
  ∧ (k ∉ sensitiveHeaders → sanitizeHeaders headers k = headers k)
  ∧ (k ∈ sensitiveFields → truthy (data k) = true →
      sanitizeRequestData data k = some "[REDACTED]")
  ∧ (k ∈ sensitiveHeaders → truthy (headers k) = true →
      sanitizeHeaders headers k = some "[REDACTED]") := by
  have hred : truthy (some "[REDACTED]") = true := rfl
  refine ⟨?_, ?_, ?_, ?_, fun h => ?_, fun h => ?_, fun h ht => ?_,
    fun h ht => ?_⟩
  · by_cases hm : k ∈ sensitiveFields <;>
      cases ht : truthy (data k) <;>
      simp [sanitizeRequestData, hm, ht, hred]
  · by_cases hm : k ∈ sensitiveHeaders <;>
      cases ht : truthy (headers k) <;>
      simp [sanitizeHeaders, hm, ht, hred]
  · by_cases hm : k ∈ sensitiveFields <;>
      cases ht : truthy (data k) <;>
      simp [sanitizeRequestData, hm, ht]
    all_goals exact isSome_of_truthy _ ht
  · by_cases hm : k ∈ sensitiveHeaders <;>
      cases ht : truthy (headers k) <;>
      simp [sanitizeHeaders, hm, ht]
    all_goals exact isSome_of_truthy _ ht
  · simp [sanitizeRequestData, h]
  · simp [sanitizeHeaders, h]
  · simp [sanitizeRequestData, h, ht]
  · simp [sanitizeHeaders, h, ht]

/-- Witness for C8's amended theorem at a concrete snapshot: a truthy
`password` is redacted, an unrelated field is untouched, and re-sanitizing
changes nothing. -/
theorem sanitize_idempotent_shape_preserving_witness :
    (sanitizeRequestData (fun k => if k = "password" then some "hunter2"
        else none) "password" = some "[REDACTED]")
  ∧ (sanitizeRequestData (sanitizeRequestData
        (fun k => if k = "password" then some "hunter2" else none))
        "password"
      = sanitizeRequestData
          (fun k => if k = "password" then some "hunter2" else none)
          "password") :=
  ⟨(sanitize_idempotent_shape_preserving
      (fun k => if k = "password" then some "hunter2" else none)
      (fun _ => none) "password").2.2.2.2.2.2.1 (by decide) (by decide),
   (sanitize_idempotent_shape_preserving
      (fun k => if k = "password" then some "hunter2" else none)
      (fun _ => none) "password").1⟩

/-- C9: action-type classification.  A path containing the login marker
maps to LOGIN regardless of method, else the logout marker to LOGOUT, else
GET→SELECT, POST→INSERT, PUT/PATCH→UPDATE, DELETE→DELETE, and any other
method to ACCESS. -/
theorem action_type_classification (method p : String) :
    (strContains p "/auth/login" = true → getActionType method p = "LOGIN")
  ∧ (strContains p "/auth/login" = false →
      strContains p "/auth/logout" = true →
      getActionType method p = "LOGOUT")
  ∧ (strContains p "/auth/login" = false →
      strContains p "/auth/logout" = false →
      (getActionType "GET" p = "SELECT"
      ∧ getActionType "POST" p = "INSERT"
      ∧ getActionType "PUT" p = "UPDATE"
      ∧ getActionType "PATCH" p = "UPDATE"
      ∧ getActionType "DELETE" p = "DELETE"
      ∧ (method ≠ "GET" → method ≠ "POST" → method ≠ "PUT" →
          method ≠ "PATCH" → method ≠ "DELETE" →
          getActionType method p = "ACCESS"))) := by
  refine ⟨fun h1 => ?_, fun h1 h2 => ?_, fun h1 h2 => ?_⟩
  · simp [getActionType, h1]
  · simp [getActionType, h1, h2]
  · refine ⟨by simp [getActionType, h1, h2], by simp [getActionType, h1, h2],
      by simp [getActionType, h1, h2], by simp [getActionType, h1, h2],
      by simp [getActionType, h1, h2], fun m1 m2 m3 m4 m5 => ?_⟩
    simp [getActionType, h1, h2, m1, m2, m3, m4, m5]

/-- Witness for C9: a POST to the login path is LOGIN; a GET elsewhere is
SELECT. -/
theorem action_type_classification_witness :
    getActionType "POST" "/api/auth/login" = "LOGIN"
  ∧ getActionType "GET" "/api/plans" = "SELECT" :=
  ⟨(action_type_classification "POST" "/api/auth/login").1 (by decide),
   ((action_type_classification "GET" "/api/plans").2.2 (by decide)
      (by decide)).1⟩

/-- C10: PHI-access recording requires an authenticated principal — for any
request without a user, `logPHIAccess` persists nothing; yet an
unauthenticated POST to a member (PHI-bearing) path is still audited under
the mutating-method gating rule. -/
theorem phi_access_requires_principal (req : Req) (pm : Option String)
    (h : req.user = none) :
    logPHIAccess req pm = none
  ∧ unauthPostMembers.user = none
  ∧ containsPHI unauthPostMembers = true
  ∧ shouldAuditRequest unauthPostMembers = true := by
  refine ⟨?_, rfl, by decide, by decide⟩
  simp [logPHIAccess, h]

/-- Witness for C10: the unauthenticated POST to the member path itself. -/
theorem phi_access_requires_principal_witness :
    logPHIAccess unauthPostMembers none = none
  ∧ unauthPostMembers.user = none
  ∧ containsPHI unauthPostMembers = true
  ∧ shouldAuditRequest unauthPostMembers = true :=
  phi_access_requires_principal unauthPostMembers none rfl

end Facets
